import Mathlib

/-!
Verification of the dual-backend transaction coordinator of
`data-usage-api` (`src/db/coordination.go`), as a shallow embedding.

Go errors are modelled by `GoErr` (the `sql.ErrNoRows` sentinel, plain
message errors, and `errors.Wrap`).  Each backend transaction is a
`TxObj` whose commit/rollback outcomes while live are fixed up front by
oracles, matching the fact that the backend's behaviour is an input to
the coordinator.  The coordinator's mutable closure fields
(`DERollback`, `DECommit`, ...) are modelled as `Closure` values:
`noop`, or `bound i` for the closure captured at open time over the
transaction with index `i`.  Go's `defer b.DERollback()` evaluates the
function value at the defer statement, so the embedding captures the
closure value at that point and invokes it (LIFO) on every exit path.
All externally visible calls are recorded in an event trace.
-/

namespace DataUsage

/-- Go error values as used by `coordination.go`: the `sql.ErrNoRows`
sentinel (compared by identity with `==`), plain errors identified by
their message, and `errors.Wrap` which prepends a context string. -/
inductive GoErr where
  | noRows : GoErr
  | msg : String → GoErr
  | wrap : String → GoErr → GoErr
deriving DecidableEq, Repr

/-- The message of `database/sql`'s `ErrTxDone`, compared against
`err.Error()` in the rollback closures of `coordination.go`. -/
def alreadyDoneStr : String := "sql: transaction has already been committed or rolled back"

/-- Rendering of `err.Error()`: the message of a Go error; `errors.Wrap` renders as
"context: inner". -/
def GoErr.message : GoErr → String
  | .noRows => "sql: no rows in result set"
  | .msg s => s
  | .wrap c e => c ++ ": " ++ e.message

/-- Whether an error value is an `errors.Wrap` (i.e. carries added
operation-name context). -/
def GoErr.isWrapped : GoErr → Bool
  | .wrap _ _ => true
  | _ => false

/-- Status of an underlying backend transaction (`sqlx.Tx`). -/
inductive TxStatus where
  | live : TxStatus
  | committed : TxStatus
  | rolledBack : TxStatus
deriving DecidableEq, Repr

/-- One underlying backend transaction.  `commitErr` / `rollbackErr`
are the oracles fixing what the backend returns when `Commit` /
`Rollback` is called while the transaction is still live; calling
either on a finalized transaction returns `ErrTxDone`. -/
structure TxObj where
  status : TxStatus
  commitErr : Option GoErr
  rollbackErr : Option GoErr
deriving DecidableEq, Repr

/-- Placeholder transaction used for an out-of-range index lookup
(never hit by the operations modelled here). -/
def txDefault : TxObj := ⟨.rolledBack, none, none⟩

/-- Backend `tx.Rollback()`: rolling back a live transaction finalizes it
(returning the rollback oracle's error, if any); on a finalized
transaction the backend returns `ErrTxDone`. -/
def rollbackTx (t : TxObj) : Option GoErr × TxObj :=
  match t.status with
  | .live => (t.rollbackErr, { t with status := .rolledBack })
  | _ => (some (.msg alreadyDoneStr), t)

/-- Backend `tx.Commit()`: committing a live transaction succeeds (status
`committed`) unless the commit oracle supplies an error (the backend
then aborts the transaction); on a finalized transaction the backend
returns `ErrTxDone`. -/
def commitTx (t : TxObj) : Option GoErr × TxObj :=
  match t.status with
  | .live =>
    match t.commitErr with
    | some e => (some e, { t with status := .rolledBack })
    | none => (none, { t with status := .committed })
  | _ => (some (.msg alreadyDoneStr), t)

/-- A coordinator closure field value: either the no-op installed at
finalize time, or the closure captured at open time over transaction
index `i`. -/
inductive Closure where
  | noop : Closure
  | bound : Nat → Closure
deriving DecidableEq, Repr

/-- The closure/handle fields of `BothDatabases`: the memoized
transaction handles `detx` / `icattx` (as indices into the backend
transaction stores) and the four rebindable closure fields. -/
structure Coord where
  detx : Option Nat := none
  deRollback : Closure := .noop
  deCommit : Closure := .noop
  icattx : Option Nat := none
  icatRollback : Closure := .noop
  icatCommit : Closure := .noop
deriving DecidableEq, Repr

/-- Externally visible events, in the order they happen. -/
inductive Event where
  | logStatsDE : Event
  | logStatsICAT : Event
  | beginDE : Event
  | beginICAT : Event
  | rollbackDE : Nat → Event
  | rollbackICAT : Nat → Event
  | commitDE : Nat → Event
  | commitICAT : Nat → Event
  | getUserInfo : String → Event
  | readUsage : String → Event
  | batchReadUsage : String → String → Event
  | ensureUsers : List String → Event
  | publishSingle : String → Int → Event
  | publishBatch : List (String × Int) → Event
  | logError : GoErr → Event
  | logInfo : String → Event
  | logDebug : String → Event
  | logTrace : String → Event
deriving DecidableEq, Repr

/-- Whether an event is a backend commit call. -/
def Event.isCommit : Event → Bool
  | .commitDE _ => true
  | .commitICAT _ => true
  | _ => false

/-- Whether an event is logged at error severity. -/
def Event.isErrorLog : Event → Bool
  | .logError _ => true
  | _ => false

/-- The whole world: the two backends' transaction stores (indexed by
creation order), the coordinator's fields, and the event trace. -/
structure World where
  deTxs : List TxObj := []
  icatTxs : List TxObj := []
  coord : Coord := {}
  trace : List Event := []
deriving DecidableEq, Repr

/-- The fresh world of a newly constructed coordinator (`NewBoth`). -/
def World.start : World := {}

/-- Append one event to the trace. -/
def World.emit (w : World) (e : Event) : World :=
  { w with trace := w.trace ++ [e] }

/-- Run the DE rollback closure `rb` captured in `DETx`: call
`detx.Rollback()`, swallow the "already finalized" condition, log any
other error at error severity, then clear the handle and reset both DE
closures to no-ops.  A `noop` closure does nothing. -/
def runDERollback (c : Closure) (w : World) : World :=
  match c with
  | .noop => w
  | .bound i =>
    let t := w.deTxs.getD i txDefault
    let p := rollbackTx t
    let w1 := { w with deTxs := w.deTxs.set i p.2, trace := w.trace ++ [.rollbackDE i] }
    let w2 : World :=
      match p.1 with
      | some e =>
        if e.message = alreadyDoneStr then w1
        else w1.emit (.logError (.wrap "Error rolling back DE database transaction" e))
      | none => w1
    { w2 with coord := { w2.coord with detx := none, deRollback := .noop, deCommit := .noop } }

/-- Run the ICAT rollback closure captured in `ICATTx` (same shape as
the DE one, with the ICAT wording and fields). -/
def runICATRollback (c : Closure) (w : World) : World :=
  match c with
  | .noop => w
  | .bound i =>
    let t := w.icatTxs.getD i txDefault
    let p := rollbackTx t
    let w1 := { w with icatTxs := w.icatTxs.set i p.2, trace := w.trace ++ [.rollbackICAT i] }
    let w2 : World :=
      match p.1 with
      | some e =>
        if e.message = alreadyDoneStr then w1
        else w1.emit (.logError (.wrap "Error rolling back ICAT transaction" e))
      | none => w1
    { w2 with coord := { w2.coord with icattx := none, icatRollback := .noop, icatCommit := .noop } }

/-- Run the DE commit closure captured in `DETx`: call
`detx.Commit()`, unconditionally clear the handle and reset both DE
closures, then wrap and log any commit error and return it.  A `noop`
closure returns `nil`. -/
def runDECommit (c : Closure) (w : World) : Option GoErr × World :=
  match c with
  | .noop => (none, w)
  | .bound i =>
    let t := w.deTxs.getD i txDefault
    let p := commitTx t
    let w1 : World := { w with deTxs := w.deTxs.set i p.2, trace := w.trace ++ [.commitDE i] }
    let w2 : World := { w1 with coord := { w1.coord with detx := none, deRollback := .noop, deCommit := .noop } }
    match p.1 with
    | some e =>
      let e2 := GoErr.wrap "Error committing DE database transaction" e
      (some e2, w2.emit (.logError e2))
    | none => (none, w2)

/-- Run the ICAT commit closure captured in `ICATTx` (same shape as
the DE one, with the ICAT wording and fields). -/
def runICATCommit (c : Closure) (w : World) : Option GoErr × World :=
  match c with
  | .noop => (none, w)
  | .bound i =>
    let t := w.icatTxs.getD i txDefault
    let p := commitTx t
    let w1 : World := { w with icatTxs := w.icatTxs.set i p.2, trace := w.trace ++ [.commitICAT i] }
    let w2 : World := { w1 with coord := { w1.coord with icattx := none, icatRollback := .noop, icatCommit := .noop } }
    match p.1 with
    | some e =>
      let e2 := GoErr.wrap "Error committing ICAT transaction" e
      (some e2, w2.emit (.logError e2))
    | none => (none, w2)

/-- Translation of `BothDatabases.DETx`: log connection stats, return the memoized
handle if one is open, otherwise begin a DE transaction (`beginRes` is
the backend's answer; `cErr` / `rErr` are the new transaction's
commit/rollback oracles), memoize it and capture fresh closures. -/
def DETx (beginRes : Option GoErr) (cErr rErr : Option GoErr) (w : World) :
    Except GoErr Nat × World :=
  let w := w.emit .logStatsDE
  match w.coord.detx with
  | some i => (.ok i, w)
  | none =>
    let w := w.emit .beginDE
    match beginRes with
    | some e => (.error (.wrap "Error creating DE transaction" e), w)
    | none =>
      let i := w.deTxs.length
      let w := { w with
        deTxs := w.deTxs ++ [⟨.live, cErr, rErr⟩],
        coord := { w.coord with detx := some i, deRollback := .bound i, deCommit := .bound i } }
      (.ok i, w)

/-- Translation of `BothDatabases.ICATTx`: same shape as `DETx` on the ICAT side. -/
def ICATTx (beginRes : Option GoErr) (cErr rErr : Option GoErr) (w : World) :
    Except GoErr Nat × World :=
  let w := w.emit .logStatsICAT
  match w.coord.icattx with
  | some i => (.ok i, w)
  | none =>
    let w := w.emit .beginICAT
    match beginRes with
    | some e => (.error (.wrap "Error creating ICAT transaction" e), w)
    | none =>
      let i := w.icatTxs.length
      let w := { w with
        icatTxs := w.icatTxs ++ [⟨.live, cErr, rErr⟩],
        coord := { w.coord with icattx := some i, icatRollback := .bound i, icatCommit := .bound i } }
      (.ok i, w)

/-- Identity record `UserInfo` as returned by `dedb.GetUserInfo`. -/
structure UserInfo where
  id : String
  username : String
deriving DecidableEq, Repr

/-- Publisher result `natsconn.UserDataUsage`.  `total` stands
for the publisher-supplied usage payload. -/
structure UserDataUsage where
  userID : String
  username : String
  total : Int
deriving DecidableEq, Repr

/-- The collaborators' answers for one `UpdateUserDataUsage` run:
begin outcomes and commit/rollback oracles for each backend, the
metadata identity lookup, the usage-source read, and the publisher's
single-user update. -/
structure SingleEnv where
  deBegin : Option GoErr := none
  deCommitErr : Option GoErr := none
  deRollbackErr : Option GoErr := none
  icatBegin : Option GoErr := none
  icatCommitErr : Option GoErr := none
  icatRollbackErr : Option GoErr := none
  userInfo : Except GoErr UserInfo
  usage : Except GoErr Int
  publish : Except GoErr UserDataUsage
deriving Repr

/-- Translation of `BothDatabases.UpdateUserDataUsage`, done statement by
statement.  `defer b.DERollback()` / `defer b.ICATRollback()` capture
the closure value at the defer statement and run in LIFO order on
every exit path (so the ICAT closure runs first, then the DE one). -/
def updateUserDataUsage (env : SingleEnv) (username : String) (w : World) :
    Except GoErr UserDataUsage × World :=
  let r1 := DETx env.deBegin env.deCommitErr env.deRollbackErr w
  match r1.1 with
  | .error e => (.error (.wrap "Error creating DE transaction" e), r1.2)
  | .ok _ =>
    let cDE := r1.2.coord.deRollback
    let r2 := ICATTx env.icatBegin env.icatCommitErr env.icatRollbackErr r1.2
    match r2.1 with
    | .error e =>
      (.error (.wrap "Error creating ICAT transaction" e), runDERollback cDE r2.2)
    | .ok _ =>
      let cICAT := r2.2.coord.icatRollback
      let w3 := r2.2.emit (.getUserInfo username)
      match env.userInfo with
      | .error e =>
        (.error (.wrap "error getting user info" e),
          runDERollback cDE (runICATRollback cICAT w3))
      | .ok userInfo =>
        let w4 := w3.emit (.readUsage username)
        let step : Except GoErr (Int × World) :=
          match env.usage with
          | .error e =>
            if e = .noRows then
              .ok (0, w4.emit (.logInfo ("No usage information was found for user " ++
                username ++ ". Attempting to add a usage of 0 anyway")))
            else
              .error (.wrap "Error getting current data usage" e)
          | .ok n => .ok (n, w4)
        match step with
        | .error e2 =>
          (.error e2, runDERollback cDE (runICATRollback cICAT w4))
        | .ok (usagenum, w5) =>
          let w6 := runICATRollback w5.coord.icatRollback w5
          let w7 := (w6.emit (.logDebug "username; usage value")).emit
            (.publishSingle username usagenum)
          match env.publish with
          | .error e =>
            if e = .noRows then
              let e2 := GoErr.wrap
                "No data could be inserted. Perhaps the user doesn't exist in the DE database" e
              (.error e2, runDERollback cDE (runICATRollback cICAT (w7.emit (.logError e2))))
            else
              let e2 := GoErr.wrap "Error adding user data usage" e
              (.error e2, runDERollback cDE (runICATRollback cICAT (w7.emit (.logError e2))))
          | .ok res =>
            let res2 := { res with userID := userInfo.id, username := userInfo.username }
            (.ok res2, runDERollback cDE (runICATRollback cICAT w7))

/-- Modelled from the spec: `util.FixUsername`, the username
canonicalizer, is code of this repository outside `src/`.  Per spec
section 4.4 it is a deterministic pure function of the raw username and
the configured domain suffix, idempotent on already-canonical names,
and per the spec's batch scenario it qualifies a bare name with the
domain ("alice" becomes "alice@domain"). -/
def fixUsername (suffix raw : String) : String :=
  if raw.endsWith ("@" ++ suffix) then raw else raw ++ "@" ++ suffix

/-- Go map assignment on an association list: overwrite the value of an
existing key, otherwise append the new binding. -/
def mapSet (m : List (String × Int)) (k : String) (v : Int) : List (String × Int) :=
  if m.any (fun p => p.1 = k) then m.map (fun p => if p.1 = k then (k, v) else p)
  else m ++ [(k, v)]

/-- The canonicalization loop of `UpdateUserDataUsageBatch`: for each
(raw username, usage) pair, append the canonical username to `us` and
set it in the `usagesFixed` map. -/
def buildFixed (suffix : String) (usages : List (String × Int)) :
    List String × List (String × Int) :=
  usages.foldl
    (fun acc p =>
      (acc.1 ++ [fixUsername suffix p.1], mapSet acc.2 (fixUsername suffix p.1) p.2))
    ([], [])

/-- Modelled from the spec: `icatdb.BatchCurrentDataUsage` is code of
this repository outside `src/`.  Per spec sections 4.3/6/8 it returns a
username-to-number map for the raw usernames in the half-open range,
where a user in range with no usage row appears with value 0 ("bob:
no row" becomes "bob: 0").  `rows` lists the in-range users with their
optional usage row. -/
def batchCurrentDataUsageModel (rows : List (String × Option Int)) : List (String × Int) :=
  rows.map (fun p => (p.1, p.2.getD 0))

/-- The collaborators' answers for one `UpdateUserDataUsageBatch` run. -/
structure BatchEnv where
  icatBegin : Option GoErr := none
  icatCommitErr : Option GoErr := none
  icatRollbackErr : Option GoErr := none
  deBegin : Option GoErr := none
  deCommitErr : Option GoErr := none
  deRollbackErr : Option GoErr := none
  batch : Except GoErr (List (String × Int))
  ensure : Option GoErr := none
  publish : Except GoErr (List UserDataUsage)
deriving Repr

/-- Translation of `BothDatabases.UpdateUserDataUsageBatch`, done statement by
statement.  The deferred closures run in LIFO order on every exit path
(DE rollback first where registered, then ICAT rollback). -/
def updateUserDataUsageBatch (env : BatchEnv) (suffix first last : String) (w : World) :
    Except GoErr (List UserDataUsage) × World :=
  let r1 := ICATTx env.icatBegin env.icatCommitErr env.icatRollbackErr w
  match r1.1 with
  | .error e => (.error (.wrap "Error creating ICAT transaction" e), r1.2)
  | .ok _ =>
    let cICAT := r1.2.coord.icatRollback
    let w2 := r1.2.emit (.batchReadUsage first last)
    match env.batch with
    | .error e => (.error e, runICATRollback cICAT w2)
    | .ok usages =>
      let w3 := runICATRollback w2.coord.icatRollback w2
      let w3 := w3.emit (.logTrace "usages in batch")
      let built := buildFixed suffix usages
      let us := built.1
      let usagesFixed := built.2
      let r2 := DETx env.deBegin env.deCommitErr env.deRollbackErr w3
      match r2.1 with
      | .error e =>
        (.error (.wrap "Error creating DE database transaction" e), runICATRollback cICAT r2.2)
      | .ok _ =>
        let cDE := r2.2.coord.deRollback
        let step : Option GoErr × World :=
          if 0 < us.length then
            let w5 := r2.2.emit (.ensureUsers us)
            match env.ensure with
            | some e => (some (.wrap "Error ensuring users exist" e), w5)
            | none => (none, w5)
          else
            (none, r2.2.emit (.logTrace "No users to be ensured in the batch"))
        match step with
        | (some e2, w5) =>
          (.error e2, runICATRollback cICAT (runDERollback cDE w5))
        | (none, w5) =>
          let cres := runDECommit w5.coord.deCommit w5
          match cres.1 with
          | some e =>
            let e2 := GoErr.wrap "Error committing DE transaction" e
            (.error e2,
              runICATRollback cICAT (runDERollback cDE (cres.2.emit (.logError e2))))
          | none =>
            let w7 := cres.2.emit (.publishBatch usagesFixed)
            match env.publish with
            | .error e =>
              (.error (.wrap "Error inserting new usage" e),
                runICATRollback cICAT (runDERollback cDE w7))
            | .ok res =>
              (.ok res, runICATRollback cICAT (runDERollback cDE w7))

/-- Witness environment: both begins succeed, the identity lookup
returns alice, the usage read reports `ErrNoRows`, the publisher
succeeds. -/
def envNoRows : SingleEnv :=
  { userInfo := .ok ⟨"u1", "alice"⟩, usage := .error .noRows, publish := .ok ⟨"", "", 7⟩ }

/-- Witness environment: all reads succeed but the publisher's
single-user update reports `ErrNoRows`. -/
def envPublishNoRows : SingleEnv :=
  { userInfo := .ok ⟨"u1", "alice"⟩, usage := .ok 5, publish := .error .noRows }

/-- Witness world for C4/C5/C6: one live transaction open on each
backend, with failing commit oracles on both. -/
def wOpenBoth : World :=
  { deTxs := [⟨.live, some (.msg "de commit failed"), none⟩],
    icatTxs := [⟨.live, some (.msg "icat commit failed"), none⟩],
    coord := { detx := some 0, deRollback := .bound 0, deCommit := .bound 0,
               icattx := some 0, icatRollback := .bound 0, icatCommit := .bound 0 } }

/-- Witness world for the failing-rollback part of C5. -/
def wRollbackFails : World :=
  { deTxs := [⟨.live, none, some (.msg "network down")⟩],
    icatTxs := [],
    coord := { detx := some 0, deRollback := .bound 0, deCommit := .bound 0 } }

/-- Environment for the spec's batch scenario: the usage source
reports alice with usage `v` and bob with no usage row, everything else
succeeds, and the publisher's bulk call returns `rs`. -/
def batchScenarioEnv (v : Int) (rs : List UserDataUsage) : BatchEnv :=
  { batch := .ok (batchCurrentDataUsageModel [("alice", some v), ("bob", none)]),
    publish := .ok rs }

/-- Witness batch environment whose usage-source read fails with a
plain backend error. -/
def batchReadFailEnv : BatchEnv := { batch := .error (.msg "boom"), publish := .ok [] }

/-- Benign single-user environment (all collaborators succeed). -/
def singleEnvOK : SingleEnv :=
  { userInfo := .ok ⟨"u1", "alice"⟩, usage := .ok 5, publish := .ok ⟨"", "", 5⟩ }

/-- Benign batch environment (all collaborators succeed). -/
def batchEnvOK : BatchEnv := { batch := .ok [("alice", 1)], publish := .ok [] }

/-- Whether an event is the metadata identity lookup. -/
def Event.isGetUserInfo : Event → Bool
  | .getUserInfo _ => true
  | _ => false

/-- Whether an event is the opening of a usage-source transaction. -/
def Event.isBeginICAT : Event → Bool
  | .beginICAT => true
  | _ => false

/-- Whether an event is the single-user usage read. -/
def Event.isReadUsage : Event → Bool
  | .readUsage _ => true
  | _ => false

/-- Whether an event is a usage-source rollback call. -/
def Event.isRollbackICAT : Event → Bool
  | .rollbackICAT _ => true
  | _ => false

/-- Whether an event is a publisher call. -/
def Event.isPublishCall : Event → Bool
  | .publishSingle _ _ => true
  | .publishBatch _ => true
  | _ => false

/-- The ordering asserted by the spec for `UpdateUserDataUsage`: the
identity is resolved strictly before the usage-source transaction is
opened. -/
def identityBeforeUsageTxOpen (tr : List Event) : Prop :=
  tr.findIdx Event.isGetUserInfo < tr.findIdx Event.isBeginICAT

instance (tr : List Event) : Decidable (identityBeforeUsageTxOpen tr) :=
  inferInstanceAs (Decidable (_ < _))

/-- Whether an event writes to the metadata backend. -/
def Event.isMetadataWrite : Event → Bool
  | .ensureUsers _ => true
  | _ => false

/-- The events strictly after the first backend commit call. -/
def eventsAfterCommit (tr : List Event) : List Event :=
  (tr.dropWhile (fun ev => ! ev.isCommit)).drop 1

/-- C1: for every username whose usage-source read reports the no-rows
sentinel, `UpdateUserDataUsage` treats the usage value as 0 and (the
other collaborators behaving) completes successfully, passing 0 to the
publisher rather than returning an error. -/
theorem updateSingle_noRows_usageZero (username : String) (env : SingleEnv)
    (hdb : env.deBegin = none) (hdr : env.deRollbackErr = none)
    (hib : env.icatBegin = none) (hir : env.icatRollbackErr = none)
    (ui : UserInfo) (hui : env.userInfo = .ok ui)
    (hus : env.usage = .error .noRows)
    (res : UserDataUsage) (hp : env.publish = .ok res) :
    (updateUserDataUsage env username World.start).1 =
      .ok { res with userID := ui.id, username := ui.username } ∧
    Event.publishSingle username 0 ∈ (updateUserDataUsage env username World.start).2.trace := by
  simp [updateUserDataUsage, DETx, ICATTx, runDERollback, runICATRollback, rollbackTx,
    World.start, World.emit, GoErr.message, alreadyDoneStr, hdb, hdr, hib, hir, hui, hus, hp,
    txDefault]

/-- Witness for C1 at a concrete input. -/
theorem updateSingle_noRows_usageZero_witness :
    (updateUserDataUsage envNoRows "alice" World.start).1 = .ok ⟨"u1", "alice", 7⟩ ∧
    Event.publishSingle "alice" 0 ∈ (updateUserDataUsage envNoRows "alice" World.start).2.trace :=
  updateSingle_noRows_usageZero "alice" envNoRows rfl rfl rfl rfl ⟨"u1", "alice"⟩ rfl rfl
    ⟨"", "", 7⟩ rfl

/-- C2: whenever the publisher's single-user update reports the
no-rows-affected sentinel, `UpdateUserDataUsage` returns an error (the
wrapped "No data could be inserted" error) and no `UserDataUsage`. -/
theorem updateSingle_publishNoRows_errors (username : String) (env : SingleEnv)
    (hdb : env.deBegin = none) (hdr : env.deRollbackErr = none)
    (hib : env.icatBegin = none) (hir : env.icatRollbackErr = none)
    (ui : UserInfo) (hui : env.userInfo = .ok ui)
    (n : Int) (hus : env.usage = .ok n)
    (hp : env.publish = .error .noRows) :
    (updateUserDataUsage env username World.start).1 =
      .error (.wrap "No data could be inserted. Perhaps the user doesn't exist in the DE database"
        .noRows) ∧
    ∀ r : UserDataUsage, (updateUserDataUsage env username World.start).1 ≠ .ok r := by
  refine ⟨?_, ?_⟩ <;>
    simp [updateUserDataUsage, DETx, ICATTx, runDERollback, runICATRollback, rollbackTx,
      World.start, World.emit, GoErr.message, alreadyDoneStr, hdb, hdr, hib, hir, hui, hus, hp,
      txDefault]

/-- Witness for C2 at a concrete input. -/
theorem updateSingle_publishNoRows_errors_witness :
    (updateUserDataUsage envPublishNoRows "alice" World.start).1 =
      .error (.wrap "No data could be inserted. Perhaps the user doesn't exist in the DE database"
        .noRows) ∧
    ∀ r : UserDataUsage, (updateUserDataUsage envPublishNoRows "alice" World.start).1 ≠ .ok r :=
  updateSingle_publishNoRows_errors "alice" envPublishNoRows rfl rfl rfl rfl ⟨"u1", "alice"⟩ rfl
    5 rfl rfl

/-- C4: running a captured commit closure clears the coordinator's
handle for that backend and resets both of its closures to no-ops,
regardless of the backend commit's outcome; the returned value is
exactly the backend commit error, wrapped with the operation name (or
`nil` on success).  This holds for every coordinator state and both
backends. -/
theorem commitClosure_alwaysFinalizes (w : World) (i j : Nat) :
    ((runDECommit (.bound i) w).2.coord.detx = none ∧
      (runDECommit (.bound i) w).2.coord.deRollback = .noop ∧
      (runDECommit (.bound i) w).2.coord.deCommit = .noop ∧
      (runDECommit (.bound i) w).1 =
        (commitTx (w.deTxs.getD i txDefault)).1.map
          (GoErr.wrap "Error committing DE database transaction")) ∧
    ((runICATCommit (.bound j) w).2.coord.icattx = none ∧
      (runICATCommit (.bound j) w).2.coord.icatRollback = .noop ∧
      (runICATCommit (.bound j) w).2.coord.icatCommit = .noop ∧
      (runICATCommit (.bound j) w).1 =
        (commitTx (w.icatTxs.getD j txDefault)).1.map
          (GoErr.wrap "Error committing ICAT transaction")) := by
  constructor
  · rcases h : (commitTx (w.deTxs.getD i txDefault)).1 with _ | e <;>
      simp_all [runDECommit, World.emit, List.getD_eq_getElem?_getD]
  · rcases h : (commitTx (w.icatTxs.getD j txDefault)).1 with _ | e <;>
      simp_all [runICATCommit, World.emit, List.getD_eq_getElem?_getD]

/-- C6: `DETx` and `ICATTx` are memoized per coordinator instance: if a
handle is already open the same handle is returned and nothing else
happens beyond the stats log (no `BeginTxx`); if none is open, a begin
is attempted and exactly one new live transaction is created and
memoized. -/
theorem tx_open_memoized (w w' : World) (i j : Nat) (b c r : Option GoErr)
    (hde : w.coord.detx = some i) (hicat : w.coord.icattx = some j)
    (hde' : w'.coord.detx = none) (hicat' : w'.coord.icattx = none) :
    DETx b c r w = (.ok i, w.emit .logStatsDE) ∧
    ICATTx b c r w = (.ok j, w.emit .logStatsICAT) ∧
    (b = none →
      (DETx b c r w').1 = .ok w'.deTxs.length ∧
      (DETx b c r w').2.deTxs = w'.deTxs ++ [⟨.live, c, r⟩] ∧
      (DETx b c r w').2.coord.detx = some w'.deTxs.length ∧
      (DETx b c r w').2.trace = w'.trace ++ [.logStatsDE, .beginDE]) ∧
    (b = none →
      (ICATTx b c r w').1 = .ok w'.icatTxs.length ∧
      (ICATTx b c r w').2.icatTxs = w'.icatTxs ++ [⟨.live, c, r⟩] ∧
      (ICATTx b c r w').2.coord.icattx = some w'.icatTxs.length ∧
      (ICATTx b c r w').2.trace = w'.trace ++ [.logStatsICAT, .beginICAT]) := by
  refine ⟨?_, ?_, ?_, ?_⟩
  · simp [DETx, World.emit, hde]
  · simp [ICATTx, World.emit, hicat]
  · rintro rfl
    simp [DETx, World.emit, hde']
  · rintro rfl
    simp [ICATTx, World.emit, hicat']

/-- Witness for C6: memoized reuse on a world with both handles open,
and fresh opens on the start world. -/
theorem tx_open_memoized_witness :
    DETx none none none wOpenBoth = (.ok 0, wOpenBoth.emit .logStatsDE) ∧
    ICATTx none none none wOpenBoth = (.ok 0, wOpenBoth.emit .logStatsICAT) ∧
    (none = (none : Option GoErr) →
      (DETx none none none World.start).1 = .ok World.start.deTxs.length ∧
      (DETx none none none World.start).2.deTxs = World.start.deTxs ++ [⟨.live, none, none⟩] ∧
      (DETx none none none World.start).2.coord.detx = some World.start.deTxs.length ∧
      (DETx none none none World.start).2.trace = World.start.trace ++ [.logStatsDE, .beginDE]) ∧
    (none = (none : Option GoErr) →
      (ICATTx none none none World.start).1 = .ok World.start.icatTxs.length ∧
      (ICATTx none none none World.start).2.icatTxs =
        World.start.icatTxs ++ [⟨.live, none, none⟩] ∧
      (ICATTx none none none World.start).2.coord.icattx = some World.start.icatTxs.length ∧
      (ICATTx none none none World.start).2.trace =
        World.start.trace ++ [.logStatsICAT, .beginICAT]) :=
  tx_open_memoized wOpenBoth World.start 0 0 none none none rfl rfl rfl rfl

/-- C5: calling a rollback closure a second time after the transaction
is finalized is safe and produces no second error: the second backend
rollback reports the "already finalized" condition, which is recognized
and swallowed without an error-severity log (the second call adds only
the rollback attempt to the trace, never a `logError`); the coordinator
state is cleared; and a rollback closure never returns an error to the
caller — a failing backend rollback (last conjuncts) is only logged. -/
theorem rollback_twice_safe (w : World) (i j : Nat)
    (hiLen : i < w.deTxs.length) (hjLen : j < w.icatTxs.length)
    (hde : (w.deTxs.getD i txDefault).status = .live)
    (hder : (w.deTxs.getD i txDefault).rollbackErr = none)
    (hic : (w.icatTxs.getD j txDefault).status = .live)
    (hicr : (w.icatTxs.getD j txDefault).rollbackErr = none)
    (w₂ : World) (k : Nat) (e : GoErr)
    (hk : (w₂.deTxs.getD k txDefault).status = .live)
    (hke : (w₂.deTxs.getD k txDefault).rollbackErr = some e)
    (hkm : e.message ≠ alreadyDoneStr) :
    (runDERollback (.bound i) w).trace = w.trace ++ [.rollbackDE i] ∧
    (runDERollback (.bound i) (runDERollback (.bound i) w)).trace =
      w.trace ++ [.rollbackDE i, .rollbackDE i] ∧
    (runDERollback (.bound i) (runDERollback (.bound i) w)).coord.detx = none ∧
    (runDERollback (.bound i) (runDERollback (.bound i) w)).coord.deRollback = .noop ∧
    (runDERollback (.bound i) (runDERollback (.bound i) w)).coord.deCommit = .noop ∧
    (runICATRollback (.bound j) w).trace = w.trace ++ [.rollbackICAT j] ∧
    (runICATRollback (.bound j) (runICATRollback (.bound j) w)).trace =
      w.trace ++ [.rollbackICAT j, .rollbackICAT j] ∧
    (runICATRollback (.bound j) (runICATRollback (.bound j) w)).coord.icattx = none ∧
    (runICATRollback (.bound j) (runICATRollback (.bound j) w)).coord.icatRollback = .noop ∧
    (runICATRollback (.bound j) (runICATRollback (.bound j) w)).coord.icatCommit = .noop ∧
    (runDERollback (.bound k) w₂).trace =
      w₂.trace ++ [.rollbackDE k,
        .logError (.wrap "Error rolling back DE database transaction" e)] := by
  simp_all [runDERollback, runICATRollback, rollbackTx, World.emit,
    List.getD_eq_getElem?_getD, List.getElem?_set_eq_of_lt, GoErr.message]

/-- Witness for C5 at a concrete input. -/
theorem rollback_twice_safe_witness :
    (runDERollback (.bound 0) wOpenBoth).trace = wOpenBoth.trace ++ [.rollbackDE 0] ∧
    (runDERollback (.bound 0) (runDERollback (.bound 0) wOpenBoth)).trace =
      wOpenBoth.trace ++ [.rollbackDE 0, .rollbackDE 0] ∧
    (runDERollback (.bound 0) (runDERollback (.bound 0) wOpenBoth)).coord.detx = none ∧
    (runDERollback (.bound 0) (runDERollback (.bound 0) wOpenBoth)).coord.deRollback = .noop ∧
    (runDERollback (.bound 0) (runDERollback (.bound 0) wOpenBoth)).coord.deCommit = .noop ∧
    (runICATRollback (.bound 0) wOpenBoth).trace = wOpenBoth.trace ++ [.rollbackICAT 0] ∧
    (runICATRollback (.bound 0) (runICATRollback (.bound 0) wOpenBoth)).trace =
      wOpenBoth.trace ++ [.rollbackICAT 0, .rollbackICAT 0] ∧
    (runICATRollback (.bound 0) (runICATRollback (.bound 0) wOpenBoth)).coord.icattx = none ∧
    (runICATRollback (.bound 0) (runICATRollback (.bound 0) wOpenBoth)).coord.icatRollback =
      .noop ∧
    (runICATRollback (.bound 0) (runICATRollback (.bound 0) wOpenBoth)).coord.icatCommit =
      .noop ∧
    (runDERollback (.bound 0) wRollbackFails).trace =
      wRollbackFails.trace ++ [.rollbackDE 0,
        .logError (.wrap "Error rolling back DE database transaction" (.msg "network down"))] :=
  rollback_twice_safe wOpenBoth 0 0 (by decide) (by decide) rfl rfl rfl rfl
    wRollbackFails 0 (.msg "network down") rfl rfl (by decide)

/-- C7: in the batch over range [a, c) where alice has usage `v` and
bob has no usage row, bob appears in the canonical map with value 0,
both canonical usernames are passed to `EnsureUsers`, the publisher's
bulk call receives exactly the canonical map, and its return value is
the operation's result unchanged. -/
theorem batch_noRow_becomesZero (v : Int) (rs : List UserDataUsage) :
    (updateUserDataUsageBatch (batchScenarioEnv v rs) "domain" "a" "c" World.start).1 = .ok rs ∧
    Event.ensureUsers ["alice@domain", "bob@domain"] ∈
      (updateUserDataUsageBatch (batchScenarioEnv v rs) "domain" "a" "c" World.start).2.trace ∧
    Event.publishBatch [("alice@domain", v), ("bob@domain", 0)] ∈
      (updateUserDataUsageBatch (batchScenarioEnv v rs) "domain" "a" "c" World.start).2.trace := by
  refine ⟨?_, ?_, ?_⟩ <;>
    simp +decide [updateUserDataUsageBatch, batchScenarioEnv, batchCurrentDataUsageModel, ICATTx,
      DETx, runICATRollback, runDERollback, runDECommit, rollbackTx, commitTx, World.emit,
      World.start, buildFixed, fixUsername, mapSet, GoErr.message, alreadyDoneStr, txDefault]

/-- C8 counterexample: when the batch usage-source read fails with the
plain backend error "boom", `UpdateUserDataUsageBatch` propagates that
error to its caller unchanged — not wrapped with operation-name
context. -/
theorem batchReadError_propagatedUnwrapped :
    (updateUserDataUsageBatch batchReadFailEnv "domain" "a" "c" World.start).1 =
      .error (.msg "boom") ∧
    GoErr.isWrapped (.msg "boom") = false :=
  ⟨rfl, rfl⟩

/-- C8 amended: every backend error propagated to the caller by the
coordinator's operations is wrapped with operation-name context, with
two exceptions: the batch usage-source read error, which is propagated
unchanged, and the "already finalized" rollback condition, which is
swallowed.  Each conjunct exercises one failure point; the nested
wraps record the double wrapping of the transaction-begin errors. -/
theorem backendErrors_wrapped_except_batchRead (e : GoErr) (hnr : e ≠ .noRows) :
    (updateUserDataUsageBatch { batchEnvOK with icatBegin := some e } "d" "a" "c"
        World.start).1 =
      .error (.wrap "Error creating ICAT transaction"
        (.wrap "Error creating ICAT transaction" e)) ∧
    (updateUserDataUsageBatch { batchEnvOK with batch := .error e } "d" "a" "c"
        World.start).1 = .error e ∧
    (updateUserDataUsageBatch { batchEnvOK with deBegin := some e } "d" "a" "c"
        World.start).1 =
      .error (.wrap "Error creating DE database transaction"
        (.wrap "Error creating DE transaction" e)) ∧
    (updateUserDataUsageBatch { batchEnvOK with ensure := some e } "d" "a" "c"
        World.start).1 = .error (.wrap "Error ensuring users exist" e) ∧
    (updateUserDataUsageBatch { batchEnvOK with deCommitErr := some e } "d" "a" "c"
        World.start).1 =
      .error (.wrap "Error committing DE transaction"
        (.wrap "Error committing DE database transaction" e)) ∧
    (updateUserDataUsageBatch { batchEnvOK with publish := .error e } "d" "a" "c"
        World.start).1 = .error (.wrap "Error inserting new usage" e) ∧
    (updateUserDataUsage { singleEnvOK with deBegin := some e } "alice" World.start).1 =
      .error (.wrap "Error creating DE transaction" (.wrap "Error creating DE transaction" e)) ∧
    (updateUserDataUsage { singleEnvOK with icatBegin := some e } "alice" World.start).1 =
      .error (.wrap "Error creating ICAT transaction"
        (.wrap "Error creating ICAT transaction" e)) ∧
    (updateUserDataUsage { singleEnvOK with userInfo := .error e } "alice" World.start).1 =
      .error (.wrap "error getting user info" e) ∧
    (updateUserDataUsage { singleEnvOK with usage := .error e } "alice" World.start).1 =
      .error (.wrap "Error getting current data usage" e) ∧
    (updateUserDataUsage { singleEnvOK with publish := .error e } "alice" World.start).1 =
      .error (.wrap "Error adding user data usage" e) := by
  refine ⟨?_, ?_, ?_, ?_, ?_, ?_, ?_, ?_, ?_, ?_, ?_⟩ <;>
    simp [updateUserDataUsageBatch, updateUserDataUsage, batchEnvOK, singleEnvOK, ICATTx, DETx,
      runICATRollback, runDERollback, runDECommit, rollbackTx, commitTx, World.emit, World.start,
      buildFixed, fixUsername, mapSet, GoErr.message, alreadyDoneStr, txDefault, hnr]

/-- Witness for the amended C8 at a concrete error. -/
theorem backendErrors_wrapped_except_batchRead_witness :
    (updateUserDataUsageBatch { batchEnvOK with icatBegin := some (.msg "boom") } "d" "a" "c"
        World.start).1 =
      .error (.wrap "Error creating ICAT transaction"
        (.wrap "Error creating ICAT transaction" (.msg "boom"))) ∧
    (updateUserDataUsageBatch { batchEnvOK with batch := .error (.msg "boom") } "d" "a" "c"
        World.start).1 = .error (.msg "boom") ∧
    (updateUserDataUsageBatch { batchEnvOK with deBegin := some (.msg "boom") } "d" "a" "c"
        World.start).1 =
      .error (.wrap "Error creating DE database transaction"
        (.wrap "Error creating DE transaction" (.msg "boom"))) ∧
    (updateUserDataUsageBatch { batchEnvOK with ensure := some (.msg "boom") } "d" "a" "c"
        World.start).1 = .error (.wrap "Error ensuring users exist" (.msg "boom")) ∧
    (updateUserDataUsageBatch { batchEnvOK with deCommitErr := some (.msg "boom") } "d" "a" "c"
        World.start).1 =
      .error (.wrap "Error committing DE transaction"
        (.wrap "Error committing DE database transaction" (.msg "boom"))) ∧
    (updateUserDataUsageBatch { batchEnvOK with publish := .error (.msg "boom") } "d" "a" "c"
        World.start).1 = .error (.wrap "Error inserting new usage" (.msg "boom")) ∧
    (updateUserDataUsage { singleEnvOK with deBegin := some (.msg "boom") } "alice"
        World.start).1 =
      .error (.wrap "Error creating DE transaction"
        (.wrap "Error creating DE transaction" (.msg "boom"))) ∧
    (updateUserDataUsage { singleEnvOK with icatBegin := some (.msg "boom") } "alice"
        World.start).1 =
      .error (.wrap "Error creating ICAT transaction"
        (.wrap "Error creating ICAT transaction" (.msg "boom"))) ∧
    (updateUserDataUsage { singleEnvOK with userInfo := .error (.msg "boom") } "alice"
        World.start).1 = .error (.wrap "error getting user info" (.msg "boom")) ∧
    (updateUserDataUsage { singleEnvOK with usage := .error (.msg "boom") } "alice"
        World.start).1 = .error (.wrap "Error getting current data usage" (.msg "boom")) ∧
    (updateUserDataUsage { singleEnvOK with publish := .error (.msg "boom") } "alice"
        World.start).1 = .error (.wrap "Error adding user data usage" (.msg "boom")) :=
  backendErrors_wrapped_except_batchRead (.msg "boom") (by decide)

/-- C9 counterexample: on a fully successful single-user run, the
usage-source transaction is opened before the identity lookup, so the
spec's claimed order (identity resolved before the usage-source
transaction is opened) is false. -/
theorem identity_resolved_after_usageTxOpen :
    (updateUserDataUsage singleEnvOK "alice" World.start).1 = .ok ⟨"u1", "alice", 5⟩ ∧
    ¬ identityBeforeUsageTxOpen (updateUserDataUsage singleEnvOK "alice" World.start).2.trace :=
  ⟨rfl, by decide⟩

/-- C9 amended: in every successful run of `UpdateUserDataUsage`, the
actual order is: usage-source transaction opened first, then identity
resolved, then the usage read, and the usage-source transaction is
finalized (rolled back) before the publisher is called. -/
theorem updateSingle_step_order (username : String) (env : SingleEnv)
    (hdb : env.deBegin = none) (hdr : env.deRollbackErr = none)
    (hib : env.icatBegin = none) (hir : env.icatRollbackErr = none)
    (ui : UserInfo) (hui : env.userInfo = .ok ui)
    (n : Int) (hus : env.usage = .ok n)
    (res : UserDataUsage) (hp : env.publish = .ok res) :
    ¬ identityBeforeUsageTxOpen (updateUserDataUsage env username World.start).2.trace ∧
    (updateUserDataUsage env username World.start).2.trace.findIdx Event.isBeginICAT <
      (updateUserDataUsage env username World.start).2.trace.findIdx Event.isGetUserInfo ∧
    (updateUserDataUsage env username World.start).2.trace.findIdx Event.isGetUserInfo <
      (updateUserDataUsage env username World.start).2.trace.findIdx Event.isReadUsage ∧
    (updateUserDataUsage env username World.start).2.trace.findIdx Event.isRollbackICAT <
      (updateUserDataUsage env username World.start).2.trace.findIdx Event.isPublishCall := by
  refine ⟨?_, ?_, ?_, ?_⟩ <;>
    simp [identityBeforeUsageTxOpen, updateUserDataUsage, DETx, ICATTx, runDERollback,
      runICATRollback, rollbackTx, World.emit, World.start, GoErr.message, alreadyDoneStr,
      txDefault, hdb, hdr, hib, hir, hui, hus, hp, Event.isGetUserInfo, Event.isBeginICAT,
      Event.isReadUsage, Event.isRollbackICAT, Event.isPublishCall, List.findIdx_cons]

/-- Witness for the amended C9 at a concrete input. -/
theorem updateSingle_step_order_witness :
    ¬ identityBeforeUsageTxOpen (updateUserDataUsage singleEnvOK "bob" World.start).2.trace ∧
    (updateUserDataUsage singleEnvOK "bob" World.start).2.trace.findIdx Event.isBeginICAT <
      (updateUserDataUsage singleEnvOK "bob" World.start).2.trace.findIdx Event.isGetUserInfo ∧
    (updateUserDataUsage singleEnvOK "bob" World.start).2.trace.findIdx Event.isGetUserInfo <
      (updateUserDataUsage singleEnvOK "bob" World.start).2.trace.findIdx Event.isReadUsage ∧
    (updateUserDataUsage singleEnvOK "bob" World.start).2.trace.findIdx Event.isRollbackICAT <
      (updateUserDataUsage singleEnvOK "bob" World.start).2.trace.findIdx
        Event.isPublishCall :=
  updateSingle_step_order "bob" singleEnvOK rfl rfl rfl rfl ⟨"u1", "alice"⟩ rfl 5 rfl
    ⟨"", "", 5⟩ rfl

/-- C3: when the metadata commit succeeds and the publisher's bulk
call then fails, the batch returns an error, the committed DE
transaction stays committed (the user rows written by `EnsureUsers`
are not retroactively removed), and no metadata write happens after
the commit. -/
theorem batch_publishFail_commitNotRolledBack (env : BatchEnv) (suffix first last : String)
    (hib : env.icatBegin = none) (hir : env.icatRollbackErr = none)
    (usages : List (String × Int)) (hb : env.batch = .ok usages)
    (hdb : env.deBegin = none) (hdc : env.deCommitErr = none) (hdr : env.deRollbackErr = none)
    (he : env.ensure = none)
    (e : GoErr) (hp : env.publish = .error e) :
    (updateUserDataUsageBatch env suffix first last World.start).1 =
      .error (.wrap "Error inserting new usage" e) ∧
    (updateUserDataUsageBatch env suffix first last World.start).2.deTxs =
      [⟨.committed, none, none⟩] ∧
    (eventsAfterCommit
        (updateUserDataUsageBatch env suffix first last World.start).2.trace).all
      (fun ev => ! ev.isMetadataWrite) = true := by
  by_cases hlen : 0 < (buildFixed suffix usages).1.length <;>
    simp [updateUserDataUsageBatch, ICATTx, DETx, runICATRollback, runDERollback, runDECommit,
      rollbackTx, commitTx, World.emit, World.start, GoErr.message, alreadyDoneStr, txDefault,
      eventsAfterCommit, Event.isCommit, Event.isMetadataWrite, List.dropWhile, hib, hir, hb,
      hdb, hdc, hdr, he, hp, hlen]

/-- Witness for C3 at a concrete input. -/
theorem batch_publishFail_commitNotRolledBack_witness :
    (updateUserDataUsageBatch { batchEnvOK with publish := .error (.msg "pubfail") } "d" "a" "c"
        World.start).1 = .error (.wrap "Error inserting new usage" (.msg "pubfail")) ∧
    (updateUserDataUsageBatch { batchEnvOK with publish := .error (.msg "pubfail") } "d" "a" "c"
        World.start).2.deTxs = [⟨.committed, none, none⟩] ∧
    (eventsAfterCommit
        (updateUserDataUsageBatch { batchEnvOK with publish := .error (.msg "pubfail") } "d" "a"
          "c" World.start).2.trace).all
      (fun ev => ! ev.isMetadataWrite) = true :=
  batch_publishFail_commitNotRolledBack
    { batchEnvOK with publish := .error (.msg "pubfail") } "d" "a" "c" rfl rfl
    [("alice", 1)] rfl rfl rfl rfl rfl (.msg "pubfail") rfl

/-- A DE rollback run adds no backend commit call to the trace. -/
theorem commitless_runDERollback (c : Closure) (w : World)
    (h : ∀ ev ∈ w.trace, ev.isCommit = false) :
    ∀ ev ∈ (runDERollback c w).trace, ev.isCommit = false := by
  cases c with
  | noop => exact h
  | bound i =>
    intro ev hev
    rcases hp : (rollbackTx (w.deTxs.getD i txDefault)).1 with _ | e <;>
      simp only [runDERollback, World.emit, hp] at hev
    · simp only [List.mem_append, List.mem_singleton] at hev
      rcases hev with h1 | rfl
      · exact h ev h1
      · rfl
    · split_ifs at hev
      · simp only [List.mem_append, List.mem_singleton] at hev
        rcases hev with h1 | rfl
        · exact h ev h1
        · rfl
      · simp only [List.mem_append, List.mem_singleton] at hev
        rcases hev with (h1 | rfl) | rfl
        · exact h ev h1
        · rfl
        · rfl

/-- An ICAT rollback run adds no backend commit call to the trace. -/
theorem commitless_runICATRollback (c : Closure) (w : World)
    (h : ∀ ev ∈ w.trace, ev.isCommit = false) :
    ∀ ev ∈ (runICATRollback c w).trace, ev.isCommit = false := by
  cases c with
  | noop => exact h
  | bound i =>
    intro ev hev
    rcases hp : (rollbackTx (w.icatTxs.getD i txDefault)).1 with _ | e <;>
      simp only [runICATRollback, World.emit, hp] at hev
    · simp only [List.mem_append, List.mem_singleton] at hev
      rcases hev with h1 | rfl
      · exact h ev h1
      · rfl
    · split_ifs at hev
      · simp only [List.mem_append, List.mem_singleton] at hev
        rcases hev with h1 | rfl
        · exact h ev h1
        · rfl
      · simp only [List.mem_append, List.mem_singleton] at hev
        rcases hev with (h1 | rfl) | rfl
        · exact h ev h1
        · rfl
        · rfl

/-- Appending a non-commit event preserves commit-freeness of the
trace. -/
theorem commitless_emit (w : World) (e : Event) (he : e.isCommit = false)
    (h : ∀ ev ∈ w.trace, ev.isCommit = false) :
    ∀ ev ∈ (w.emit e).trace, ev.isCommit = false := by
  intro ev hev
  simp only [World.emit, List.mem_append, List.mem_singleton] at hev
  rcases hev with h1 | rfl
  · exact h ev h1
  · exact he

/-- A DE rollback run does not touch the ICAT transaction store. -/
theorem icatTxs_runDERollback (c : Closure) (w : World) :
    (runDERollback c w).icatTxs = w.icatTxs := by
  cases c with
  | noop => rfl
  | bound i =>
    rcases hp : (rollbackTx (w.deTxs.getD i txDefault)).1 with _ | e <;>
      simp only [runDERollback, World.emit, hp]
    split_ifs <;> rfl

/-- An ICAT rollback run does not touch the DE transaction store. -/
theorem deTxs_runICATRollback (c : Closure) (w : World) :
    (runICATRollback c w).deTxs = w.deTxs := by
  cases c with
  | noop => rfl
  | bound i =>
    rcases hp : (rollbackTx (w.icatTxs.getD i txDefault)).1 with _ | e <;>
      simp only [runICATRollback, World.emit, hp]
    split_ifs <;> rfl

/-- Rolling back the only DE transaction (not committed) leaves it
rolled back. -/
theorem deTxs_runDERollback_singleton (w : World) (t : TxObj) (hw : w.deTxs = [t])
    (hs : t.status ≠ .committed) :
    (runDERollback (.bound 0) w).deTxs = [⟨.rolledBack, t.commitErr, t.rollbackErr⟩] := by
  obtain ⟨st, ce, re⟩ := t
  cases st <;> cases re <;>
    simp_all [runDERollback, rollbackTx, World.emit, GoErr.message, alreadyDoneStr] <;>
    split_ifs <;> simp_all

/-- Rolling back the only ICAT transaction (not committed) leaves it
rolled back. -/
theorem icatTxs_runICATRollback_singleton (w : World) (t : TxObj) (hw : w.icatTxs = [t])
    (hs : t.status ≠ .committed) :
    (runICATRollback (.bound 0) w).icatTxs = [⟨.rolledBack, t.commitErr, t.rollbackErr⟩] := by
  obtain ⟨st, ce, re⟩ := t
  cases st <;> cases re <;>
    simp_all [runICATRollback, rollbackTx, World.emit, GoErr.message, alreadyDoneStr] <;>
    split_ifs <;> simp_all

/-- Running the deferred ICAT then DE rollback closures over a world
holding one uncommitted transaction per backend leaves every
transaction rolled back and adds no commit call. -/
theorem finalizeBoth (wX : World) (dce dre ice ire : Option GoErr) (sD sI : TxStatus)
    (hd : wX.deTxs = [⟨sD, dce, dre⟩]) (hsD : sD ≠ .committed)
    (hi : wX.icatTxs = [⟨sI, ice, ire⟩]) (hsI : sI ≠ .committed)
    (htr : ∀ ev ∈ wX.trace, ev.isCommit = false) :
    (∀ ev ∈ (runDERollback (.bound 0) (runICATRollback (.bound 0) wX)).trace,
      ev.isCommit = false) ∧
    (∀ t ∈ (runDERollback (.bound 0) (runICATRollback (.bound 0) wX)).deTxs,
      t.status = .rolledBack) ∧
    (∀ t ∈ (runDERollback (.bound 0) (runICATRollback (.bound 0) wX)).icatTxs,
      t.status = .rolledBack) := by
  refine ⟨?_, ?_, ?_⟩
  · exact commitless_runDERollback _ _ (commitless_runICATRollback _ _ htr)
  · have h1 : (runICATRollback (.bound 0) wX).deTxs = [⟨sD, dce, dre⟩] := by
      rw [deTxs_runICATRollback, hd]
    rw [deTxs_runDERollback_singleton _ _ h1 hsD]
    simp
  · have h1 : (runICATRollback (.bound 0) wX).icatTxs = [⟨.rolledBack, ice, ire⟩] :=
      icatTxs_runICATRollback_singleton _ _ hi hsI
    rw [icatTxs_runDERollback, h1]
    simp
/-- C10: `UpdateUserDataUsage` never commits either backend
transaction: for every environment (every path, success or error) the
trace contains no backend commit call, and every transaction either
backend opened ends rolled back — the only externally persistent
effect of a single-user update is the publisher call. -/
theorem updateSingle_neverCommits (env : SingleEnv) (username : String) :
    (∀ ev ∈ (updateUserDataUsage env username World.start).2.trace, ev.isCommit = false) ∧
    (∀ t ∈ (updateUserDataUsage env username World.start).2.deTxs, t.status = .rolledBack) ∧
    (∀ t ∈ (updateUserDataUsage env username World.start).2.icatTxs,
      t.status = .rolledBack) := by
  obtain ⟨db, dce, dre, ib, ice, ire, ui, us, pub⟩ := env
  cases db with
  | some e =>
    simp [updateUserDataUsage, DETx, World.start, World.emit, Event.isCommit]
  | none =>
    cases ib with
    | some e =>
      simp only [updateUserDataUsage, DETx, ICATTx, World.start, World.emit, List.length_nil,
        List.nil_append, List.cons_append, List.append_nil]
      refine ⟨?_, ?_, ?_⟩
      · refine commitless_runDERollback _ _ ?_
        simp [Event.isCommit]
      · rw [deTxs_runDERollback_singleton _ ⟨.live, dce, dre⟩ (by simp) (by simp)]
        simp
      · rw [icatTxs_runDERollback]
        simp
    | none =>
      cases ui with
      | error e =>
        simp only [updateUserDataUsage, DETx, ICATTx, World.start]
        refine finalizeBoth _ dce dre ice ire .live .live ?_ (by decide) ?_ (by decide) ?_
        · simp [World.emit]
        · simp [World.emit]
        · simp [World.emit, Event.isCommit]
      | ok u =>
        cases us with
        | error e =>
          by_cases he : e = .noRows
          · subst he
            cases pub with
            | error ep =>
              by_cases hep : ep = .noRows
              · simp only [updateUserDataUsage, DETx, ICATTx, World.start, World.emit,
                  List.length_nil, List.nil_append, List.cons_append, List.append_nil, reduceIte]
                rw [if_pos hep]
                refine finalizeBoth _ dce dre ice ire .live .rolledBack ?_ (by decide) ?_
                  (by decide) ?_
                · exact deTxs_runICATRollback _ _
                · exact icatTxs_runICATRollback_singleton _ ⟨.live, ice, ire⟩ rfl (by simp)
                · intro ev hev
                  simp only [List.mem_append, List.mem_cons, List.mem_singleton,
                    List.not_mem_nil, or_false, or_assoc] at hev
                  rcases hev with h1 | rfl | rfl | rfl <;>
                    first
                      | rfl
                      | exact commitless_runICATRollback _ _ (by simp [Event.isCommit]) ev h1
              · simp only [updateUserDataUsage, DETx, ICATTx, World.start, World.emit,
                  List.length_nil, List.nil_append, List.cons_append, List.append_nil, reduceIte]
                rw [if_neg hep]
                refine finalizeBoth _ dce dre ice ire .live .rolledBack ?_ (by decide) ?_
                  (by decide) ?_
                · exact deTxs_runICATRollback _ _
                · exact icatTxs_runICATRollback_singleton _ ⟨.live, ice, ire⟩ rfl (by simp)
                · intro ev hev
                  simp only [List.mem_append, List.mem_cons, List.mem_singleton,
                    List.not_mem_nil, or_false, or_assoc] at hev
                  rcases hev with h1 | rfl | rfl | rfl <;>
                    first
                      | rfl
                      | exact commitless_runICATRollback _ _ (by simp [Event.isCommit]) ev h1
            | ok r =>
              simp only [updateUserDataUsage, DETx, ICATTx, World.start, World.emit,
                List.length_nil, List.nil_append, List.cons_append, List.append_nil, reduceIte]
              refine finalizeBoth _ dce dre ice ire .live .rolledBack ?_ (by decide) ?_
                (by decide) ?_
              · exact deTxs_runICATRollback _ _
              · exact icatTxs_runICATRollback_singleton _ ⟨.live, ice, ire⟩ rfl (by simp)
              · intro ev hev
                simp only [List.mem_append, List.mem_cons, List.mem_singleton,
                  List.not_mem_nil, or_false, or_assoc] at hev
                rcases hev with h1 | rfl | rfl <;>
                  first
                    | rfl
                    | exact commitless_runICATRollback _ _ (by simp [Event.isCommit]) ev h1
          · simp only [updateUserDataUsage, DETx, ICATTx, World.start, World.emit,
              List.length_nil, List.nil_append, List.cons_append, List.append_nil]
            rw [if_neg he]
            refine finalizeBoth _ dce dre ice ire .live .live rfl (by decide) rfl (by decide) ?_
            simp [Event.isCommit]
        | ok n =>
          cases pub with
          | error ep =>
            by_cases hep : ep = .noRows
            · simp only [updateUserDataUsage, DETx, ICATTx, World.start, World.emit,
                List.length_nil, List.nil_append, List.cons_append, List.append_nil]
              rw [if_pos hep]
              refine finalizeBoth _ dce dre ice ire .live .rolledBack ?_ (by decide) ?_
                (by decide) ?_
              · exact deTxs_runICATRollback _ _
              · exact icatTxs_runICATRollback_singleton _ ⟨.live, ice, ire⟩ rfl (by simp)
              · intro ev hev
                simp only [List.mem_append, List.mem_cons, List.mem_singleton,
                  List.not_mem_nil, or_false, or_assoc] at hev
                rcases hev with h1 | rfl | rfl | rfl <;>
                  first
                    | rfl
                    | exact commitless_runICATRollback _ _ (by simp [Event.isCommit]) ev h1
            · simp only [updateUserDataUsage, DETx, ICATTx, World.start, World.emit,
                List.length_nil, List.nil_append, List.cons_append, List.append_nil]
              rw [if_neg hep]
              refine finalizeBoth _ dce dre ice ire .live .rolledBack ?_ (by decide) ?_
                (by decide) ?_
              · exact deTxs_runICATRollback _ _
              · exact icatTxs_runICATRollback_singleton _ ⟨.live, ice, ire⟩ rfl (by simp)
              · intro ev hev
                simp only [List.mem_append, List.mem_cons, List.mem_singleton,
                  List.not_mem_nil, or_false, or_assoc] at hev
                rcases hev with h1 | rfl | rfl | rfl <;>
                  first
                    | rfl
                    | exact commitless_runICATRollback _ _ (by simp [Event.isCommit]) ev h1
          | ok r =>
            simp only [updateUserDataUsage, DETx, ICATTx, World.start, World.emit,
              List.length_nil, List.nil_append, List.cons_append, List.append_nil]
            refine finalizeBoth _ dce dre ice ire .live .rolledBack ?_ (by decide) ?_
              (by decide) ?_
            · exact deTxs_runICATRollback _ _
            · exact icatTxs_runICATRollback_singleton _ ⟨.live, ice, ire⟩ rfl (by simp)
            · intro ev hev
              simp only [List.mem_append, List.mem_cons, List.mem_singleton,
                List.not_mem_nil, or_false, or_assoc] at hev
              rcases hev with h1 | rfl | rfl <;>
                first
                  | rfl
                  | exact commitless_runICATRollback _ _ (by simp [Event.isCommit]) ev h1

end DataUsage
